import Mathlib

/-
  Verification development for the `PoolConfig` class of
  `src/utils/poolconfig.py` (a Uniswap-v3 pool-configuration helper).

  The Python class is shallowly embedded as follows.
  An object is a record in which every attribute the code ever reads or
  writes is a field; attributes that the constructor does not assign are
  `Option`-valued and start out `none` (reading a `none` attribute models
  Python's `AttributeError`).  Python floats are modelled as real numbers,
  ints as integers.  Each method becomes a function
  `PoolConfig → Except PyError PyVal × PoolConfig`: the first component is
  the returned value or the uncaught exception, the second the state of the
  object after the call (assignments performed before an exception is
  raised persist, exactly as in Python).
-/

noncomputable section

namespace UniV3

/-- Python exceptions that the embedded code can raise. -/
inductive PyError where
  /-- `AttributeError`: reading an attribute that was never assigned. -/
  | attributeError (attr : String) : PyError
  /-- `ValueError: math domain error` from `math.sqrt` / `math.log`. -/
  | valueError : PyError
  /-- `ZeroDivisionError` from `/`. -/
  | zeroDivisionError : PyError
  /-- `NotImplementedError` (never produced by this code; part of the
  Python error space so that specifications can mention it). -/
  | notImplementedError : PyError
  deriving DecidableEq

/-- Python values returned by the embedded methods. -/
inductive PyVal where
  /-- Python `None`. -/
  | pyNone : PyVal
  /-- a Python float, modelled as a real number. -/
  | pyFloat (x : ℝ) : PyVal
  /-- a Python int. -/
  | pyInt (n : ℤ) : PyVal
  /-- a Python list. -/
  | pyList (xs : List PyVal) : PyVal
  /-- the Python `NotImplemented` constant (never produced by this code). -/
  | pyNotImplemented : PyVal

/-- State of a `PoolConfig` object: one field per attribute that the source
ever reads or writes.  `initial` is the attribute read by `set_prices`
(line 13); no method of the class ever assigns it, hence it is `Option`
valued, like all attributes not assigned by `__init__`. -/
structure PoolConfig where
  token0_initial : ℝ
  token0_upper_bound : ℝ
  token0_lower_bound : ℝ
  token1_initial : ℝ
  /-- the attribute `self.initial`, read at line 13 and assigned nowhere. -/
  initial : Option ℝ
  initial_price : Option ℝ
  upper_price_bound : Option ℝ
  lower_price_bound : Option ℝ
  initial_price_sqrtp : Option ℤ
  upper_price_sqrtp : Option ℤ
  lower_price_sqrtp : Option ℤ
  initial_tick : Option ℤ
  upper_tick : Option ℤ
  lower_tick : Option ℤ

/-- `PoolConfig.__init__(self, initial, upper_bound, lower_bound)`:
stores the three bounds and sets `token1_initial = 1`; every other
attribute is left unassigned. -/
def construct (initial upper_bound lower_bound : ℝ) : PoolConfig where
  token0_initial := initial
  token0_upper_bound := upper_bound
  token0_lower_bound := lower_bound
  token1_initial := 1
  initial := none
  initial_price := none
  upper_price_bound := none
  lower_price_bound := none
  initial_price_sqrtp := none
  upper_price_sqrtp := none
  lower_price_sqrtp := none
  initial_tick := none
  upper_tick := none
  lower_tick := none

/-- Python `/` on numbers: raises `ZeroDivisionError` on a zero divisor. -/
def pyDiv (x y : ℝ) : Except PyError ℝ :=
  if y = 0 then .error .zeroDivisionError else .ok (x / y)

/-- Python `math.sqrt`: raises `ValueError` (math domain error) on a
negative argument. -/
def pySqrt (x : ℝ) : Except PyError ℝ :=
  if x < 0 then .error .valueError else .ok (Real.sqrt x)

/-- Python `math.log(x, b)` = `log(x) / log(b)`: raises `ValueError`
(math domain error) when `x ≤ 0`.  (The base is always the positive
literal `1.0001` in this code, so no check on the base is needed.) -/
def pyLogBase (x b : ℝ) : Except PyError ℝ :=
  if x ≤ 0 then .error .valueError else .ok (Real.log x / Real.log b)

/-- Python `int()` on a float: truncation toward zero. -/
def pyInt (x : ℝ) : ℤ :=
  if 0 ≤ x then ⌊x⌋ else -⌊-x⌋

/-- `math.sqrt(num / den)`, the expression used by each line of
`set_prices`. -/
def sqrtOfDiv (num den : ℝ) : Except PyError ℝ := do
  let r ← pyDiv num den
  pySqrt r

/-- `PoolConfig.set_prices` (lines 12–17).  Note that line 13 reads
`self.initial`, an attribute that no method ever assigns. -/
def set_prices (c : PoolConfig) : Except PyError PyVal × PoolConfig :=
  match c.initial with
  | none => (.error (.attributeError "initial"), c)
  | some x =>
    match sqrtOfDiv x c.token1_initial with
    | .error e => (.error e, c)
    | .ok p1 =>
      let c1 : PoolConfig := { c with initial_price := some p1 }
      match sqrtOfDiv c1.token0_upper_bound c1.token1_initial with
      | .error e => (.error e, c1)
      | .ok p2 =>
        let c2 : PoolConfig := { c1 with upper_price_bound := some p2 }
        match sqrtOfDiv c2.token0_lower_bound c2.token1_initial with
        | .error e => (.error e, c2)
        | .ok p3 =>
          let c3 : PoolConfig := { c2 with lower_price_bound := some p3 }
          (.ok (.pyList [.pyFloat p1, .pyFloat p2, .pyFloat p3]), c3)

/-- `PoolConfig.set_price_to_sqrtp` (lines 19–25): each line reads a price
attribute (raising `AttributeError` if it is unassigned), takes
`math.sqrt` of it, scales by `q96 = 2 ** 96` and truncates with `int()`. -/
def set_price_to_sqrtp (c : PoolConfig) : Except PyError PyVal × PoolConfig :=
  let q96 : ℝ := 2 ^ 96
  match c.initial_price with
  | none => (.error (.attributeError "initial_price"), c)
  | some p1 =>
    match pySqrt p1 with
    | .error e => (.error e, c)
    | .ok s1 =>
      let c1 : PoolConfig := { c with initial_price_sqrtp := some (pyInt (s1 * q96)) }
      match c1.upper_price_bound with
      | none => (.error (.attributeError "upper_price_bound"), c1)
      | some p2 =>
        match pySqrt p2 with
        | .error e => (.error e, c1)
        | .ok s2 =>
          let c2 : PoolConfig := { c1 with upper_price_sqrtp := some (pyInt (s2 * q96)) }
          match c2.lower_price_bound with
          | none => (.error (.attributeError "lower_price_bound"), c2)
          | some p3 =>
            match pySqrt p3 with
            | .error e => (.error e, c2)
            | .ok s3 =>
              let c3 : PoolConfig := { c2 with lower_price_sqrtp := some (pyInt (s3 * q96)) }
              (.ok (.pyList [.pyInt (pyInt (s1 * q96)), .pyInt (pyInt (s2 * q96)),
                  .pyInt (pyInt (s3 * q96))]), c3)

/-- `PoolConfig.set_price_ticks` (lines 27–32): each line reads a price
attribute (raising `AttributeError` if it is unassigned) and computes
`math.floor(math.log(price, 1.0001))`. -/
def set_price_ticks (c : PoolConfig) : Except PyError PyVal × PoolConfig :=
  match c.initial_price with
  | none => (.error (.attributeError "initial_price"), c)
  | some p1 =>
    match pyLogBase p1 1.0001 with
    | .error e => (.error e, c)
    | .ok x1 =>
      let c1 : PoolConfig := { c with initial_tick := some ⌊x1⌋ }
      match c1.upper_price_bound with
      | none => (.error (.attributeError "upper_price_bound"), c1)
      | some p2 =>
        match pyLogBase p2 1.0001 with
        | .error e => (.error e, c1)
        | .ok x2 =>
          let c2 : PoolConfig := { c1 with upper_tick := some ⌊x2⌋ }
          match c2.lower_price_bound with
          | none => (.error (.attributeError "lower_price_bound"), c2)
          | some p3 =>
            match pyLogBase p3 1.0001 with
            | .error e => (.error e, c2)
            | .ok x3 =>
              let c3 : PoolConfig := { c2 with lower_tick := some ⌊x3⌋ }
              (.ok (.pyList [.pyInt ⌊x1⌋, .pyInt ⌊x2⌋, .pyInt ⌊x3⌋]), c3)

/-- `PoolConfig.calculate_liqudiry` (lines 34–35): the body is `pass`, so
the call returns `None` and changes nothing. -/
def calculate_liqudiry (c : PoolConfig) : Except PyError PyVal × PoolConfig :=
  (.ok .pyNone, c)

/-- The `PoolConfig` states reachable in Python: objects come from
`__init__` and evolve only through the four methods. -/
inductive Reachable : PoolConfig → Prop where
  | constructed (i u l : ℝ) : Reachable (construct i u l)
  | prices {c : PoolConfig} : Reachable c → Reachable (set_prices c).2
  | sqrtp {c : PoolConfig} : Reachable c → Reachable (set_price_to_sqrtp c).2
  | ticks {c : PoolConfig} : Reachable c → Reachable (set_price_ticks c).2
  | liquidity {c : PoolConfig} : Reachable c → Reachable (calculate_liqudiry c).2

/-- `d` agrees with `c` on every attribute except (possibly) the three
price fields — the frame of `set_prices`. -/
def AgreesExceptPrices (c d : PoolConfig) : Prop :=
  d.token0_initial = c.token0_initial ∧
  d.token0_upper_bound = c.token0_upper_bound ∧
  d.token0_lower_bound = c.token0_lower_bound ∧
  d.token1_initial = c.token1_initial ∧
  d.initial = c.initial ∧
  d.initial_price_sqrtp = c.initial_price_sqrtp ∧
  d.upper_price_sqrtp = c.upper_price_sqrtp ∧
  d.lower_price_sqrtp = c.lower_price_sqrtp ∧
  d.initial_tick = c.initial_tick ∧
  d.upper_tick = c.upper_tick ∧
  d.lower_tick = c.lower_tick

/-- `d` agrees with `c` on every attribute except (possibly) the three
sqrtp fields — the frame of `set_price_to_sqrtp`. -/
def AgreesExceptSqrtp (c d : PoolConfig) : Prop :=
  d.token0_initial = c.token0_initial ∧
  d.token0_upper_bound = c.token0_upper_bound ∧
  d.token0_lower_bound = c.token0_lower_bound ∧
  d.token1_initial = c.token1_initial ∧
  d.initial = c.initial ∧
  d.initial_price = c.initial_price ∧
  d.upper_price_bound = c.upper_price_bound ∧
  d.lower_price_bound = c.lower_price_bound ∧
  d.initial_tick = c.initial_tick ∧
  d.upper_tick = c.upper_tick ∧
  d.lower_tick = c.lower_tick

/-- `d` agrees with `c` on every attribute except (possibly) the three
tick fields — the frame of `set_price_ticks`. -/
def AgreesExceptTicks (c d : PoolConfig) : Prop :=
  d.token0_initial = c.token0_initial ∧
  d.token0_upper_bound = c.token0_upper_bound ∧
  d.token0_lower_bound = c.token0_lower_bound ∧
  d.token1_initial = c.token1_initial ∧
  d.initial = c.initial ∧
  d.initial_price = c.initial_price ∧
  d.upper_price_bound = c.upper_price_bound ∧
  d.lower_price_bound = c.lower_price_bound ∧
  d.initial_price_sqrtp = c.initial_price_sqrtp ∧
  d.upper_price_sqrtp = c.upper_price_sqrtp ∧
  d.lower_price_sqrtp = c.lower_price_sqrtp

lemma set_prices_frame (c : PoolConfig) : AgreesExceptPrices c (set_prices c).2 := by
  unfold AgreesExceptPrices
  cases hI : c.initial with
  | none => simp [set_prices, hI]
  | some x =>
    cases hA : sqrtOfDiv x c.token1_initial with
    | error e => simp [set_prices, hI, hA]
    | ok p1 =>
      cases hB : sqrtOfDiv c.token0_upper_bound c.token1_initial with
      | error e => simp [set_prices, hI, hA, hB]
      | ok p2 =>
        cases hC : sqrtOfDiv c.token0_lower_bound c.token1_initial with
        | error e => simp [set_prices, hI, hA, hB, hC]
        | ok p3 => simp [set_prices, hI, hA, hB, hC]

lemma set_price_to_sqrtp_frame (c : PoolConfig) :
    AgreesExceptSqrtp c (set_price_to_sqrtp c).2 := by
  unfold AgreesExceptSqrtp
  cases hI : c.initial_price with
  | none => simp [set_price_to_sqrtp, hI]
  | some p1 =>
    cases hA : pySqrt p1 with
    | error e => simp [set_price_to_sqrtp, hI, hA]
    | ok s1 =>
      cases hU : c.upper_price_bound with
      | none => simp [set_price_to_sqrtp, hI, hA, hU]
      | some p2 =>
        cases hB : pySqrt p2 with
        | error e => simp [set_price_to_sqrtp, hI, hA, hU, hB]
        | ok s2 =>
          cases hL : c.lower_price_bound with
          | none => simp [set_price_to_sqrtp, hI, hA, hU, hB, hL]
          | some p3 =>
            cases hC : pySqrt p3 with
            | error e => simp [set_price_to_sqrtp, hI, hA, hU, hB, hL, hC]
            | ok s3 => simp [set_price_to_sqrtp, hI, hA, hU, hB, hL, hC]

lemma set_price_ticks_frame (c : PoolConfig) :
    AgreesExceptTicks c (set_price_ticks c).2 := by
  unfold AgreesExceptTicks
  cases hI : c.initial_price with
  | none => simp [set_price_ticks, hI]
  | some p1 =>
    cases hA : pyLogBase p1 1.0001 with
    | error e => simp [set_price_ticks, hI, hA]
    | ok x1 =>
      cases hU : c.upper_price_bound with
      | none => simp [set_price_ticks, hI, hA, hU]
      | some p2 =>
        cases hB : pyLogBase p2 1.0001 with
        | error e => simp [set_price_ticks, hI, hA, hU, hB]
        | ok x2 =>
          cases hL : c.lower_price_bound with
          | none => simp [set_price_ticks, hI, hA, hU, hB, hL]
          | some p3 =>
            cases hC : pyLogBase p3 1.0001 with
            | error e => simp [set_price_ticks, hI, hA, hU, hB, hL, hC]
            | ok x3 => simp [set_price_ticks, hI, hA, hU, hB, hL, hC]

lemma set_prices_of_unset {c : PoolConfig} (h : c.initial = none) :
    set_prices c = (.error (.attributeError "initial"), c) := by
  simp [set_prices, h]

lemma set_price_to_sqrtp_of_unset {c : PoolConfig} (h : c.initial_price = none) :
    set_price_to_sqrtp c = (.error (.attributeError "initial_price"), c) := by
  simp [set_price_to_sqrtp, h]

lemma set_price_ticks_of_unset {c : PoolConfig} (h : c.initial_price = none) :
    set_price_ticks c = (.error (.attributeError "initial_price"), c) := by
  simp [set_price_ticks, h]

/-- On every reachable state, the attribute `initial` is unset (no method
assigns it) and consequently the three price fields are unset too
(`set_prices`, the only method that assigns them, always fails on reading
`initial` before assigning anything). -/
lemma reachable_unset {c : PoolConfig} (h : Reachable c) :
    c.initial = none ∧ c.initial_price = none ∧
      c.upper_price_bound = none ∧ c.lower_price_bound = none := by
  induction h with
  | constructed i u l => exact ⟨rfl, rfl, rfl, rfl⟩
  | prices _ ih => rw [set_prices_of_unset ih.1]; exact ih
  | sqrtp _ ih => rw [set_price_to_sqrtp_of_unset ih.2.1]; exact ih
  | ticks _ ih => rw [set_price_ticks_of_unset ih.2.1]; exact ih
  | liquidity _ ih => exact ih

lemma pySqrt_of_nonneg {p : ℝ} (h : 0 ≤ p) : pySqrt p = Except.ok (Real.sqrt p) := by
  simp [pySqrt, not_lt.mpr h]

lemma pyLogBase_of_pos {p : ℝ} (b : ℝ) (h : 0 < p) :
    pyLogBase p b = Except.ok (Real.log p / Real.log b) := by
  simp [pyLogBase, not_le.mpr h]

lemma pyLogBase_of_nonpos {p : ℝ} (b : ℝ) (h : p ≤ 0) :
    pyLogBase p b = Except.error PyError.valueError := by
  simp [pyLogBase, h]

lemma pyInt_of_nonneg {x : ℝ} (h : 0 ≤ x) : pyInt x = ⌊x⌋ := by
  unfold pyInt
  rw [if_pos h]

/-- `floor (log p / log 1.0001)` has the floor-of-logarithm bracketing
property: `1.0001 ^ t ≤ p < 1.0001 ^ (t + 1)`. -/
lemma tick_bracket {p : ℝ} (hp : 0 < p) :
    (1.0001 : ℝ) ^ ⌊Real.log p / Real.log 1.0001⌋ ≤ p ∧
      p < (1.0001 : ℝ) ^ (⌊Real.log p / Real.log 1.0001⌋ + 1) := by
  have hb1 : (1 : ℝ) < 1.0001 := by norm_num
  have hb0 : (0 : ℝ) < 1.0001 := by norm_num
  have hL : 0 < Real.log 1.0001 := Real.log_pos hb1
  constructor
  · have hzpos : (0 : ℝ) < (1.0001 : ℝ) ^ ⌊Real.log p / Real.log 1.0001⌋ :=
      zpow_pos hb0 _
    rw [← Real.log_le_log_iff hzpos hp, Real.log_zpow]
    calc (⌊Real.log p / Real.log 1.0001⌋ : ℝ) * Real.log 1.0001
        ≤ Real.log p / Real.log 1.0001 * Real.log 1.0001 :=
          mul_le_mul_of_nonneg_right (Int.floor_le _) hL.le
      _ = Real.log p := div_mul_cancel₀ _ hL.ne'
  · have hzpos : (0 : ℝ) < (1.0001 : ℝ) ^ (⌊Real.log p / Real.log 1.0001⌋ + 1) :=
      zpow_pos hb0 _
    rw [← Real.log_lt_log_iff hp hzpos, Real.log_zpow]
    have h3 : Real.log p < ((⌊Real.log p / Real.log 1.0001⌋ : ℝ) + 1) * Real.log 1.0001 :=
      (div_lt_iff₀ hL).mp (Int.lt_floor_add_one _)
    push_cast
    exact h3

/-- A state whose price fields hold `1`, `4` and `0` (concrete input for
evaluating `set_price_to_sqrtp`). -/
def sqrtpWitness : PoolConfig :=
  { construct 2000 3000 1000 with
    initial_price := some 1
    upper_price_bound := some 4
    lower_price_bound := some 0 }

/-- A state whose three price fields all hold `1` (concrete input for
evaluating `set_price_ticks`). -/
def ticksWitness : PoolConfig :=
  { construct 2000 3000 1000 with
    initial_price := some 1
    upper_price_bound := some 1
    lower_price_bound := some 1 }

/-- A state whose price fields hold `1`, `1` and `0` (concrete input for
the domain-error path of `set_price_ticks`). -/
def ticksBadWitness : PoolConfig :=
  { construct 2000 3000 1000 with
    initial_price := some 1
    upper_price_bound := some 1
    lower_price_bound := some 0 }

/-- Claim C1 (code bug): the specification says `computePrices()` on a
configuration constructed with `(2000, 3000, 1000)` returns
`[sqrt 2000, sqrt 3000, sqrt 1000]`, but line 13 of the source reads
`self.initial`, an attribute `__init__` never assigns (it stores the first
argument as `token0_initial`), so the call raises
`AttributeError("initial")` and returns no list at all. -/
theorem spec_c1_eval :
    set_prices (construct 2000 3000 1000) =
      (.error (.attributeError "initial"), construct 2000 3000 1000) ∧
    ∀ v : PyVal, (set_prices (construct 2000 3000 1000)).1 ≠ Except.ok v := by
  refine ⟨set_prices_of_unset rfl, ?_⟩
  intro v
  rw [set_prices_of_unset rfl]
  simp

/-- Claim C2 (confirmed): on every reachable `PoolConfig` state — whatever
the constructor arguments — `set_prices` raises `AttributeError` on the
read of `self.initial` before computing any price, leaves the object
unchanged, and the three price fields are (and stay) unpopulated. -/
theorem spec_c2 {c : PoolConfig} (h : Reachable c) :
    set_prices c = (.error (.attributeError "initial"), c) ∧
      c.initial_price = none ∧ c.upper_price_bound = none ∧
      c.lower_price_bound = none := by
  obtain ⟨hi, h1, h2, h3⟩ := reachable_unset h
  exact ⟨set_prices_of_unset hi, h1, h2, h3⟩

/-- Witness for C2 at the constructed state `construct 2000 3000 1000`. -/
theorem spec_c2_witness :
    Reachable (construct 2000 3000 1000) ∧
      (set_prices (construct 2000 3000 1000) =
          (.error (.attributeError "initial"), construct 2000 3000 1000) ∧
        (construct 2000 3000 1000).initial_price = none ∧
        (construct 2000 3000 1000).upper_price_bound = none ∧
        (construct 2000 3000 1000).lower_price_bound = none) :=
  ⟨Reachable.constructed 2000 3000 1000,
    spec_c2 (Reachable.constructed 2000 3000 1000)⟩

/-- Claim C3 (confirmed): when the three price fields are populated with
non-negative values, `set_price_to_sqrtp` returns the list of the three
integers `⌊sqrt price * 2 ^ 96⌋` (square root applied to the already
square-rooted price, literally as in the source) and each is
non-negative. -/
theorem spec_c3 (c : PoolConfig) (p1 p2 p3 : ℝ)
    (h1 : c.initial_price = some p1) (h2 : c.upper_price_bound = some p2)
    (h3 : c.lower_price_bound = some p3)
    (n1 : 0 ≤ p1) (n2 : 0 ≤ p2) (n3 : 0 ≤ p3) :
    (set_price_to_sqrtp c).1 = Except.ok (.pyList
        [.pyInt ⌊Real.sqrt p1 * 2 ^ 96⌋, .pyInt ⌊Real.sqrt p2 * 2 ^ 96⌋,
          .pyInt ⌊Real.sqrt p3 * 2 ^ 96⌋]) ∧
      0 ≤ ⌊Real.sqrt p1 * 2 ^ 96⌋ ∧ 0 ≤ ⌊Real.sqrt p2 * 2 ^ 96⌋ ∧
      0 ≤ ⌊Real.sqrt p3 * 2 ^ 96⌋ := by
  have g1 : pyInt (Real.sqrt p1 * 2 ^ 96) = ⌊Real.sqrt p1 * 2 ^ 96⌋ :=
    pyInt_of_nonneg (by positivity)
  have g2 : pyInt (Real.sqrt p2 * 2 ^ 96) = ⌊Real.sqrt p2 * 2 ^ 96⌋ :=
    pyInt_of_nonneg (by positivity)
  have g3 : pyInt (Real.sqrt p3 * 2 ^ 96) = ⌊Real.sqrt p3 * 2 ^ 96⌋ :=
    pyInt_of_nonneg (by positivity)
  refine ⟨?_, Int.floor_nonneg.mpr (by positivity),
    Int.floor_nonneg.mpr (by positivity), Int.floor_nonneg.mpr (by positivity)⟩
  simp [set_price_to_sqrtp, h1, h2, h3, pySqrt_of_nonneg n1,
    pySqrt_of_nonneg n2, pySqrt_of_nonneg n3, g1, g2, g3]

/-- Witness for C3 on the state whose price fields hold `1`, `4`, `0`. -/
theorem spec_c3_witness :
    (sqrtpWitness.initial_price = some 1 ∧
      sqrtpWitness.upper_price_bound = some 4 ∧
      sqrtpWitness.lower_price_bound = some 0 ∧
      (0 : ℝ) ≤ 1 ∧ (0 : ℝ) ≤ 4 ∧ (0 : ℝ) ≤ 0) ∧
    ((set_price_to_sqrtp sqrtpWitness).1 = Except.ok (.pyList
        [.pyInt ⌊Real.sqrt 1 * 2 ^ 96⌋, .pyInt ⌊Real.sqrt 4 * 2 ^ 96⌋,
          .pyInt ⌊Real.sqrt 0 * 2 ^ 96⌋]) ∧
      0 ≤ ⌊Real.sqrt (1 : ℝ) * 2 ^ 96⌋ ∧ 0 ≤ ⌊Real.sqrt (4 : ℝ) * 2 ^ 96⌋ ∧
      0 ≤ ⌊Real.sqrt (0 : ℝ) * 2 ^ 96⌋) :=
  ⟨⟨rfl, rfl, rfl, by norm_num, by norm_num, le_refl 0⟩,
    spec_c3 sqrtpWitness 1 4 0 rfl rfl rfl (by norm_num) (by norm_num)
      (le_refl 0)⟩

/-- Claim C4 (confirmed): when the three price fields are populated with
positive values, `set_price_ticks` returns the list of the three integers
`⌊log price / log 1.0001⌋`, and each tick `t` satisfies
`1.0001 ^ t ≤ price < 1.0001 ^ (t + 1)`. -/
theorem spec_c4 (c : PoolConfig) (p1 p2 p3 : ℝ)
    (h1 : c.initial_price = some p1) (h2 : c.upper_price_bound = some p2)
    (h3 : c.lower_price_bound = some p3)
    (q1 : 0 < p1) (q2 : 0 < p2) (q3 : 0 < p3) :
    (set_price_ticks c).1 = Except.ok (.pyList
        [.pyInt ⌊Real.log p1 / Real.log 1.0001⌋,
          .pyInt ⌊Real.log p2 / Real.log 1.0001⌋,
          .pyInt ⌊Real.log p3 / Real.log 1.0001⌋]) ∧
      ((1.0001 : ℝ) ^ ⌊Real.log p1 / Real.log 1.0001⌋ ≤ p1 ∧
        p1 < (1.0001 : ℝ) ^ (⌊Real.log p1 / Real.log 1.0001⌋ + 1)) ∧
      ((1.0001 : ℝ) ^ ⌊Real.log p2 / Real.log 1.0001⌋ ≤ p2 ∧
        p2 < (1.0001 : ℝ) ^ (⌊Real.log p2 / Real.log 1.0001⌋ + 1)) ∧
      ((1.0001 : ℝ) ^ ⌊Real.log p3 / Real.log 1.0001⌋ ≤ p3 ∧
        p3 < (1.0001 : ℝ) ^ (⌊Real.log p3 / Real.log 1.0001⌋ + 1)) := by
  refine ⟨?_, tick_bracket q1, tick_bracket q2, tick_bracket q3⟩
  simp [set_price_ticks, h1, h2, h3, pyLogBase_of_pos 1.0001 q1,
    pyLogBase_of_pos 1.0001 q2, pyLogBase_of_pos 1.0001 q3]

/-- Witness for C4 on the state whose three price fields all hold `1`. -/
theorem spec_c4_witness :
    (ticksWitness.initial_price = some 1 ∧
      ticksWitness.upper_price_bound = some 1 ∧
      ticksWitness.lower_price_bound = some 1 ∧ (0 : ℝ) < 1) ∧
    ((set_price_ticks ticksWitness).1 = Except.ok (.pyList
        [.pyInt ⌊Real.log 1 / Real.log 1.0001⌋,
          .pyInt ⌊Real.log 1 / Real.log 1.0001⌋,
          .pyInt ⌊Real.log 1 / Real.log 1.0001⌋]) ∧
      ((1.0001 : ℝ) ^ ⌊Real.log (1 : ℝ) / Real.log 1.0001⌋ ≤ 1 ∧
        (1 : ℝ) < (1.0001 : ℝ) ^ (⌊Real.log (1 : ℝ) / Real.log 1.0001⌋ + 1)) ∧
      ((1.0001 : ℝ) ^ ⌊Real.log (1 : ℝ) / Real.log 1.0001⌋ ≤ 1 ∧
        (1 : ℝ) < (1.0001 : ℝ) ^ (⌊Real.log (1 : ℝ) / Real.log 1.0001⌋ + 1)) ∧
      ((1.0001 : ℝ) ^ ⌊Real.log (1 : ℝ) / Real.log 1.0001⌋ ≤ 1 ∧
        (1 : ℝ) < (1.0001 : ℝ) ^ (⌊Real.log (1 : ℝ) / Real.log 1.0001⌋ + 1))) :=
  ⟨⟨rfl, rfl, rfl, by norm_num⟩,
    spec_c4 ticksWitness 1 1 1 rfl rfl rfl (by norm_num) (by norm_num)
      (by norm_num)⟩

/-- Claim C5, counterexample to the claim as stated: `calculate_liqudiry`
(the `computeLiquidity` operation) does not signal `NotImplemented` — its
body is `pass`, so on the configuration `construct 2000 3000 1000` it
returns Python `None`: neither the `NotImplemented` constant nor a
`NotImplementedError`. -/
theorem spec_c5_counterexample :
    calculate_liqudiry (construct 2000 3000 1000) =
      (Except.ok PyVal.pyNone, construct 2000 3000 1000) ∧
    (calculate_liqudiry (construct 2000 3000 1000)).1 ≠
      Except.ok PyVal.pyNotImplemented ∧
    (calculate_liqudiry (construct 2000 3000 1000)).1 ≠
      Except.error PyError.notImplementedError := by
  refine ⟨rfl, ?_, ?_⟩ <;> simp [calculate_liqudiry]

/-- Claim C5 as amended: `calculate_liqudiry` is an unconditional no-op —
for every `PoolConfig` it returns Python `None`, never a numeric value,
and leaves the object unchanged. -/
theorem spec_c5_amended (c : PoolConfig) :
    calculate_liqudiry c = (Except.ok PyVal.pyNone, c) ∧
      (∀ x : ℝ, (calculate_liqudiry c).1 ≠ Except.ok (PyVal.pyFloat x)) ∧
      (∀ n : ℤ, (calculate_liqudiry c).1 ≠ Except.ok (PyVal.pyInt n)) := by
  refine ⟨rfl, ?_, ?_⟩ <;> intro a <;> simp [calculate_liqudiry]

/-- Witness for the amended C5 at `construct 0 0 0`. -/
theorem spec_c5_witness :
    calculate_liqudiry (construct 0 0 0) =
        (Except.ok PyVal.pyNone, construct 0 0 0) ∧
      (∀ x : ℝ, (calculate_liqudiry (construct 0 0 0)).1 ≠
        Except.ok (PyVal.pyFloat x)) ∧
      (∀ n : ℤ, (calculate_liqudiry (construct 0 0 0)).1 ≠
        Except.ok (PyVal.pyInt n)) :=
  spec_c5_amended (construct 0 0 0)

/-- Claim C6 (code bug): for positive, correctly ordered constructor
inputs — here `construct 4 9 1`, with `0 < 1 ≤ 4 ≤ 9` — the specification
says `computePrices()` returns values with
`lowerPriceBound ≤ initialPrice ≤ upperPriceBound`; instead the call
raises `AttributeError("initial")` (line 13 reads the never-assigned
`self.initial`) and returns no values at all. -/
theorem spec_c6_eval :
    ((0 : ℝ) < 1 ∧ (0 : ℝ) < 4 ∧ (0 : ℝ) < 9 ∧ (1 : ℝ) ≤ 4 ∧ (4 : ℝ) ≤ 9) ∧
    set_prices (construct 4 9 1) =
      (.error (.attributeError "initial"), construct 4 9 1) ∧
    ∀ v : PyVal, (set_prices (construct 4 9 1)).1 ≠ Except.ok v := by
  refine ⟨by norm_num, set_prices_of_unset rfl, ?_⟩
  intro v
  rw [set_prices_of_unset rfl]
  simp

/-- Claim C7 (confirmed): if any populated price field is `≤ 0`,
`set_price_ticks` fails with the math domain error (`ValueError`) of
`math.log`, and the error propagates to the caller uncaught. -/
theorem spec_c7 (c : PoolConfig) (p1 p2 p3 : ℝ)
    (h1 : c.initial_price = some p1) (h2 : c.upper_price_bound = some p2)
    (h3 : c.lower_price_bound = some p3)
    (hbad : p1 ≤ 0 ∨ p2 ≤ 0 ∨ p3 ≤ 0) :
    (set_price_ticks c).1 = Except.error PyError.valueError := by
  by_cases k1 : p1 ≤ 0
  · simp [set_price_ticks, h1, pyLogBase_of_nonpos 1.0001 k1]
  · have q1 : 0 < p1 := lt_of_not_le k1
    by_cases k2 : p2 ≤ 0
    · simp [set_price_ticks, h1, h2, pyLogBase_of_pos 1.0001 q1,
        pyLogBase_of_nonpos 1.0001 k2]
    · have q2 : 0 < p2 := lt_of_not_le k2
      have k3 : p3 ≤ 0 := by
        rcases hbad with h | h | h
        · exact absurd h k1
        · exact absurd h k2
        · exact h
      simp [set_price_ticks, h1, h2, h3, pyLogBase_of_pos 1.0001 q1,
        pyLogBase_of_pos 1.0001 q2, pyLogBase_of_nonpos 1.0001 k3]

/-- Witness for C7 on the state whose price fields hold `1`, `1`, `0`. -/
theorem spec_c7_witness :
    (ticksBadWitness.initial_price = some 1 ∧
      ticksBadWitness.upper_price_bound = some 1 ∧
      ticksBadWitness.lower_price_bound = some 0 ∧
      ((1 : ℝ) ≤ 0 ∨ (1 : ℝ) ≤ 0 ∨ (0 : ℝ) ≤ 0)) ∧
    (set_price_ticks ticksBadWitness).1 = Except.error PyError.valueError :=
  ⟨⟨rfl, rfl, rfl, Or.inr (Or.inr (le_refl 0))⟩,
    spec_c7 ticksBadWitness 1 1 0 rfl rfl rfl
      (Or.inr (Or.inr (le_refl 0)))⟩

/-- Claim C8 (code bug): with a negative first bound (`construct (-5)
3000 1000`) the specification says `computePrices()` fails with a domain
error from `math.sqrt`; construction indeed never fails and performs no
validation, but the subsequent `set_prices` call raises
`AttributeError("initial")` before any square root is evaluated, so the
promised domain error never occurs. -/
theorem spec_c8_eval :
    set_prices (construct (-5) 3000 1000) =
      (.error (.attributeError "initial"), construct (-5) 3000 1000) ∧
    PyError.attributeError "initial" ≠ PyError.valueError :=
  ⟨set_prices_of_unset rfl, by simp⟩

/-- Claim C9 (confirmed): on a freshly constructed `PoolConfig`, before
any successful `set_prices`, both `set_price_to_sqrtp` and
`set_price_ticks` fail with the uninitialized-field error
`AttributeError("initial_price")` and leave the object unchanged — they do
not silently compute on garbage. -/
theorem spec_c9 (i u l : ℝ) :
    set_price_to_sqrtp (construct i u l) =
      (.error (.attributeError "initial_price"), construct i u l) ∧
    set_price_ticks (construct i u l) =
      (.error (.attributeError "initial_price"), construct i u l) :=
  ⟨set_price_to_sqrtp_of_unset rfl, set_price_ticks_of_unset rfl⟩

/-- Witness for C9 at `construct 7 8 9`. -/
theorem spec_c9_witness :
    set_price_to_sqrtp (construct 7 8 9) =
      (.error (.attributeError "initial_price"), construct 7 8 9) ∧
    set_price_ticks (construct 7 8 9) =
      (.error (.attributeError "initial_price"), construct 7 8 9) :=
  spec_c9 7 8 9

/-- Claim C10 (confirmed): every method leaves the constructor-stored
inputs (and every attribute outside its own derived triple) unchanged:
`set_prices` may touch only the three price fields, `set_price_to_sqrtp`
only the three sqrtp fields, `set_price_ticks` only the three tick
fields, and `calculate_liqudiry` changes nothing at all. -/
theorem spec_c10 (c : PoolConfig) :
    AgreesExceptPrices c (set_prices c).2 ∧
      AgreesExceptSqrtp c (set_price_to_sqrtp c).2 ∧
      AgreesExceptTicks c (set_price_ticks c).2 ∧
      (calculate_liqudiry c).2 = c :=
  ⟨set_prices_frame c, set_price_to_sqrtp_frame c, set_price_ticks_frame c,
    rfl⟩

/-- Witness for C10 at `construct 1 2 3`. -/
theorem spec_c10_witness :
    AgreesExceptPrices (construct 1 2 3) (set_prices (construct 1 2 3)).2 ∧
      AgreesExceptSqrtp (construct 1 2 3)
        (set_price_to_sqrtp (construct 1 2 3)).2 ∧
      AgreesExceptTicks (construct 1 2 3)
        (set_price_ticks (construct 1 2 3)).2 ∧
      (calculate_liqudiry (construct 1 2 3)).2 = construct 1 2 3 :=
  spec_c10 (construct 1 2 3)

end UniV3
